import Mathlib

/-!
Verification of the query-builder and model layer of `smrtypntz/database.py`
(shallow embedding).  Python values are embedded as `PyVal`, Python string
formatting (`%s`) as `pyStr`, exceptions as `Except PyExn`.  Dictionaries
(insertion ordered) are embedded as association lists.
-/

/-- A Python exception kind, as raised by the embedded code paths. -/
inductive PyExn where
  | attributeError
  | valueError
  | keyError
  | indexError
deriving DecidableEq, Repr

/-- A scalar Python value as used by this program: an int or a str. -/
inductive PyScalar where
  | int (n : Int)
  | str (s : String)
deriving DecidableEq, Repr

/-- A Python value as manipulated by this program: a scalar, `None`,
or a flat list or tuple of scalars (tag values and the enum values
`EQUALS = ("=",)` etc. are flat containers). -/
inductive PyVal where
  | scalar (v : PyScalar)
  | none
  | list (xs : List PyScalar)
  | tuple (xs : List PyScalar)
deriving DecidableEq, Repr

/-- Python `repr` of a scalar: ints print decimally, strings are quoted
with single quotes (escape-free strings suffice here). -/
def pyReprScalar : PyScalar → String
  | .int n => toString n
  | .str s => "\x27" ++ s ++ "\x27"

/-- Python `str` of a scalar (as produced by a `%s` conversion). -/
def pyStrScalar : PyScalar → String
  | .int n => toString n
  | .str s => s

/-- Python `str` of a value, as substituted by a `%s` conversion:
containers show the `repr` of their elements, and a 1-tuple keeps its
trailing comma. -/
def pyStr : PyVal → String
  | .scalar v => pyStrScalar v
  | .none => "None"
  | .list xs => "[" ++ String.intercalate ", " (xs.map pyReprScalar) ++ "]"
  | .tuple [x] => "(" ++ pyReprScalar x ++ ",)"
  | .tuple xs => "(" ++ String.intercalate ", " (xs.map pyReprScalar) ++ ")"

/-- `_Condition._Type`: the comparison operators. -/
inductive CondOp where
  | eq
  | ne
  | gt
  | ge
  | lt
  | le
deriving DecidableEq, Repr

/-- The runtime value of each `_Condition._Type` enum member.  In the
source every member except `LESS_THAN_EQUALS` is written with a trailing
comma (`EQUALS = "=",`), so its value is a 1-tuple rather than a string. -/
def CondOp.enumVal : CondOp → PyVal
  | .eq => .tuple [.str "="]
  | .ne => .tuple [.str "!="]
  | .gt => .tuple [.str ">"]
  | .ge => .tuple [.str ">="]
  | .lt => .tuple [.str "<"]
  | .le => .scalar (.str "<=")

/-- `_Condition`: one predicate, `_column_name`, `_value` and `_type`
(the constructor sets column and value; `_type` defaults to EQUALS). -/
structure Condition where
  column_name : Option String
  value : PyVal
  type : CondOp := .eq
deriving DecidableEq, Repr

/-- `_Condition.__str__`: formats `"%s %s %s" % (column, type.value, value)`
when both `_column_name` and `_value` are not `None`, else the empty string. -/
def Condition.str (c : Condition) : String :=
  match c.column_name with
  | some col =>
      if c.value = PyVal.none then ""
      else col ++ " " ++ pyStr c.type.enumVal ++ " " ++ pyStr c.value
  | Option.none => ""

/-- `_ConditionGroup._Type`: the join operators. -/
inductive GroupOp where
  | and
  | or
deriving DecidableEq, Repr

/-- The runtime value of each `_ConditionGroup._Type` member.  `AND` is
written with a trailing comma (`AND = " AND ",`), so its value is the
1-tuple `(" AND ",)`; `OR` is the plain string `" OR "`. -/
def GroupOp.enumVal : GroupOp → PyVal
  | .and => .tuple [.str " AND "]
  | .or => .scalar (.str " OR ")

/-- `_ConditionGroup`: subclasses `list` (its members live in the list
contents) and carries a `_type` defaulting to AND. -/
structure ConditionGroup where
  members : List Condition
  type : GroupOp := .and
deriving DecidableEq, Repr

/-- The class attribute `_ConditionGroup._conditions = []`.  No code ever
assigns or appends to it, so it is always the empty list (the group
members appended to the list subclass itself are a different store). -/
def ConditionGroup.conditionsAttr : List String := []

/-- Python `value.join(parts)`: defined on `str` values only; any other
receiver (such as a tuple) raises `AttributeError`. -/
def pyStrJoin : PyVal → List String → Except PyExn String
  | .scalar (.str s), xs => .ok (String.intercalate s xs)
  | _, _ => .error .attributeError

/-- `_ConditionGroup.__str__`: `"(%s)" % (self._type.value.join(self._conditions))`.
The join receiver is the enum value (a tuple for AND) and the joined list
is the always-empty class attribute `_conditions`, not the members. -/
def ConditionGroup.str (g : ConditionGroup) : Except PyExn String :=
  match pyStrJoin g.type.enumVal ConditionGroup.conditionsAttr with
  | .ok s => .ok ("(" ++ s ++ ")")
  | .error e => .error e

/-- A `_Query._where_map`: either a `_Condition` or a `_ConditionGroup`. -/
inductive WhereMap where
  | cond (c : Condition)
  | group (g : ConditionGroup)
deriving DecidableEq, Repr

/-- `str(where_map)`: dispatches to the dunder of the actual class. -/
def whereStr : WhereMap → Except PyExn String
  | .cond c => .ok c.str
  | .group g => g.str

/-- The four `_Query` subclasses. -/
inductive QueryKind where
  | insert
  | select
  | update
  | delete
deriving DecidableEq, Repr

/-- `_Query`: table name, optional insertion-ordered value map, optional
where tree; `kind` selects the subclass whose `_get_query_str` runs. -/
structure Query where
  kind : QueryKind
  table_name : Option String
  value_map : Option (List (String × PyVal)) := Option.none
  where_map : Option WhereMap := Option.none
deriving DecidableEq, Repr

/-- `_Query._get_columns_str`: `", ".join(value_map.keys())` or `"*"`. -/
def getColumnsStr : Option (List (String × PyVal)) → String
  | some m => String.intercalate ", " (m.map Prod.fst)
  | Option.none => "*"

/-- `_Query._get_values_str`: `", ".join("?" * len(value_map))` — joining
the n-character string `"?"*n` yields one `"?"` per value — or `""`. -/
def getValuesStr : Option (List (String × PyVal)) → String
  | some m => String.intercalate ", " (List.replicate m.length "?")
  | Option.none => ""

/-- `_Query._get_where_conditions`: `"WHERE %s" % str(where_map)` when a
where tree is present, else the empty string. -/
def getWhereConditions : Option WhereMap → Except PyExn String
  | some w =>
      match whereStr w with
      | .ok s => .ok ("WHERE " ++ s)
      | .error e => .error e
  | Option.none => .ok ""

/-- `_Query._get_args`: the tuple of the value map values, or `None`. -/
def getArgs : Option (List (String × PyVal)) → Option (List PyVal) :=
  Option.map (List.map Prod.snd)

/-- The loop body of `_Update._get_changes_string`:
`for key, val in self._value_map` iterates the KEYS of the dict and
unpacks each key string into `key, val`, which succeeds only for a
2-character key (its two characters) and raises `ValueError` otherwise;
each round appends `"%s = %s" % (key, val)`. -/
def changesParts : List (String × PyVal) → Except PyExn (List String)
  | [] => .ok []
  | (k, _) :: rest =>
      match k.data with
      | [a, b] =>
          match changesParts rest with
          | .ok t => .ok ((String.singleton a ++ " = " ++ String.singleton b) :: t)
          | .error e => .error e
      | _ => .error .valueError

/-- `_Update._get_changes_string`: empty for a missing value map, else the
comma-join of the per-key fragments built by the (defective) loop. -/
def getChangesString : Option (List (String × PyVal)) → Except PyExn String
  | Option.none => .ok ""
  | some m =>
      match changesParts m with
      | .ok parts => .ok (String.intercalate ", " parts)
      | .error e => .error e

/-- Python `str.strip()`: removes leading and trailing whitespace. -/
def pyStrip (s : String) : String :=
  ⟨(((s.data.dropWhile Char.isWhitespace).reverse.dropWhile Char.isWhitespace).reverse)⟩

/-- The `_get_query_str` of each subclass, with the table name already
unwrapped (build only renders when the table name is present).  Select
and Update strip the rendered template. -/
def getQueryStr (q : Query) (t : String) : Except PyExn String :=
  match q.kind with
  | .insert =>
      .ok ("INSERT INTO " ++ t ++ " (" ++ getColumnsStr q.value_map
            ++ ") VALUES (" ++ getValuesStr q.value_map ++ ")")
  | .select =>
      match getWhereConditions q.where_map with
      | .ok w => .ok (pyStrip ("SELECT " ++ getColumnsStr q.value_map ++ " FROM " ++ t ++ " " ++ w))
      | .error e => .error e
  | .update =>
      match getChangesString q.value_map with
      | .ok changes =>
          match getWhereConditions q.where_map with
          | .ok w => .ok (pyStrip ("UPDATE " ++ t ++ " SET " ++ changes ++ " " ++ w))
          | .error e => .error e
      | .error e => .error e
  | .delete =>
      match q.where_map with
      | some _ =>
          match getWhereConditions q.where_map with
          | .ok w => .ok ("DELETE FROM " ++ t ++ " " ++ w)
          | .error e => .error e
      | Option.none => .ok ""

/-- The result dict of `_Query.build`: either the query/args pair or the
error dict `{"error": msg}`. -/
inductive BuildResult where
  | ok (query : String) (args : Option (List PyVal))
  | err (msg : String)
deriving DecidableEq, Repr

/-- `_Query.build`: when the table name is present, render the statement
(any exception propagates) and pair it with the args; otherwise return
the error dict without touching the renderer. -/
def build (q : Query) : Except PyExn BuildResult :=
  match q.table_name with
  | some t =>
      match getQueryStr q t with
      | .ok s => .ok (.ok s (getArgs q.value_map))
      | .error e => .error e
  | Option.none => .ok (.err "No table name provided.")

/-- A `_Model` (a `dict` subclass): an insertion-ordered association list
with unique keys. -/
abbrev Model := List (String × PyVal)

/-- Python `d[k]` lookup on a dict-like object, as an option: the value of
the first matching key, or nothing (a `KeyError` at the call site). -/
def dictGet : List (String × PyVal) → String → Option PyVal
  | [], _ => Option.none
  | (k, v) :: rest, key => if k = key then some v else dictGet rest key

/-- Python `d[k] = v` on a dict: overwrite the value in place when the key
exists, else append the new pair at the end (insertion order). -/
def dictSet : List (String × PyVal) → String → PyVal → List (String × PyVal)
  | [], key, v => [(key, v)]
  | (k, w) :: rest, key, v =>
      if k = key then (k, v) :: rest else (k, w) :: dictSet rest key v

/-- String-to-string dict lookup (for the sqlite field mapping). -/
def strMapGet : List (String × String) → String → Option String
  | [], _ => Option.none
  | (k, v) :: rest, key => if k = key then some v else strMapGet rest key

/-- The key renaming of `_Model.from_sqlite`:
`sqlite_field_mapping[sql_key] if mapping is not None and sql_key in mapping
else sql_key`. -/
def mapKey (fm : Option (List (String × String))) (k : String) : String :=
  match fm with
  | some m =>
      match strMapGet m k with
      | some a => a
      | Option.none => k
  | Option.none => k

/-- The loop of `_Model.from_sqlite`: `for sql_key in row.keys():
self[key] = row[sql_key]` — iterate the row keys, look each one up in the
row, and store it in the model under the (possibly renamed) key. -/
def fromSqliteKeys (row : List (String × PyVal))
    (fm : Option (List (String × String))) : List String → Model → Model
  | [], m => m
  | k :: ks, m =>
      fromSqliteKeys row fm ks
        (match dictGet row k with
         | some v => dictSet m (mapKey fm k) v
         | Option.none => m)

/-- `_Model.from_sqlite(row, sqlite_field_mapping)` applied to a model. -/
def fromSqlite (m : Model) (row : List (String × PyVal))
    (fm : Option (List (String × String))) : Model :=
  fromSqliteKeys row fm (row.map Prod.fst) m

/-- `_Model._set_if_tag_exists(field_name, source, source_field)`: the
source field defaults to the field name; a missing source key raises
`KeyError`; a `None` value is skipped; a list value contributes its first
element (`IndexError` when empty); any other value is stored as is.
Returns the updated model together with the raised exception, if any
(the model is untouched when an exception is raised). -/
def setIfTagExists (m : Model) (field : String)
    (source : List (String × PyVal)) (sourceField : Option String) :
    Model × Option PyExn :=
  let sf := match sourceField with
    | Option.none => field
    | some s => s
  match dictGet source sf with
  | Option.none => (m, some .keyError)
  | some v =>
      if v = PyVal.none then (m, Option.none)
      else
        match v with
        | .list [] => (m, some .indexError)
        | .list (x :: _) => (dictSet m field (.scalar x), Option.none)
        | _ => (dictSet m field v, Option.none)

/-- Equality of embedded exception results is decidable. -/
def exceptDecEq {α β : Type} [DecidableEq α] [DecidableEq β] :
    (a b : Except α β) → Decidable (a = b)
  | .ok x, .ok y =>
      if h : x = y then .isTrue (by rw [h]) else .isFalse (fun he => h (by cases he; rfl))
  | .error x, .error y =>
      if h : x = y then .isTrue (by rw [h]) else .isFalse (fun he => h (by cases he; rfl))
  | .ok _, .error _ => .isFalse (fun he => by cases he)
  | .error _, .ok _ => .isFalse (fun he => by cases he)

instance {α β : Type} [DecidableEq α] [DecidableEq β] : DecidableEq (Except α β) :=
  exceptDecEq

/-- Claim C1: rendering a Condition with column "id" and value 5 under the
default EQUALS operator yields "id ('=',) 5" — the enum member value is the
1-tuple created by the trailing comma, not the literal symbol "=" the claim
states — while the empty-string behaviour for an unset column or value does
hold.  This contradicts the claimed rendering "id = 5". -/
theorem condition_render_enum_tuple :
    Condition.str { column_name := some "id", value := .scalar (.int 5) } = "id (\x27=\x27,) 5" ∧
    "id (\x27=\x27,) 5" ≠ "id = 5" ∧
    Condition.str { column_name := Option.none, value := .scalar (.int 5) } = "" ∧
    Condition.str { column_name := some "id", value := PyVal.none } = "" :=
  ⟨rfl, by decide, rfl, rfl⟩

/-- Claim C2: rendering a ConditionGroup never joins its members.  For the
default AND type, str() raises AttributeError because the enum value is the
1-tuple (" AND ",), which has no join method; for the OR type it joins the
always-empty class attribute and renders "()" regardless of the two
non-empty members, never producing the claimed N-1 join tokens. -/
theorem condition_group_render_defect :
    ConditionGroup.str { members := [{ column_name := some "a", value := .scalar (.int 1) },
                                     { column_name := some "b", value := .scalar (.int 2) }] }
      = .error .attributeError ∧
    ConditionGroup.str { members := [{ column_name := some "a", value := .scalar (.int 1) },
                                     { column_name := some "b", value := .scalar (.int 2) }],
                         type := .or }
      = .ok "()" :=
  ⟨rfl, rfl⟩

/-- Claim C3, counterexample: a Delete on table "t" with no WHERE builds
successfully to the query/args pair ("", None) — no MissingWhereClause
error result is produced — and a Delete with where Condition("id", 5)
does not build the claimed statement DELETE FROM t WHERE (id = ?) with
parameters [5]. -/
theorem delete_missing_where_counterexample :
    build { kind := .delete, table_name := some "t" } = .ok (.ok "" Option.none) ∧
    build { kind := .delete, table_name := some "t",
            where_map := some (.cond { column_name := some "id", value := .scalar (.int 5) }) }
      ≠ .ok (.ok "DELETE FROM t WHERE (id = ?)" (some [PyVal.scalar (.int 5)])) :=
  ⟨rfl, by decide⟩

/-- Claim C3, amended: a Delete with no WHERE builds to the empty statement
string with args None and no error; a Delete on table "t" with where
Condition("id", 5) builds DELETE FROM t WHERE id ('=',) 5 — the value
inlined into the statement text, the operator rendered as the enum 1-tuple
— with args None. -/
theorem delete_build_actual_behavior :
    build { kind := .delete, table_name := some "t" } = .ok (.ok "" Option.none) ∧
    build { kind := .delete, table_name := some "t",
            where_map := some (.cond { column_name := some "id", value := .scalar (.int 5) }) }
      = .ok (.ok "DELETE FROM t WHERE id (\x27=\x27,) 5" Option.none) :=
  ⟨rfl, rfl⟩

/-- Claim C4, counterexample: a builder whose table name is present need
not return a statement: a Delete on table "t" whose where tree is an AND
condition group raises AttributeError from the renderer, so build()
produces neither a statement nor an error result. -/
theorem build_statement_counterexample :
    build { kind := .delete, table_name := some "t",
            where_map := some (.group { members := [] }) } = .error .attributeError :=
  rfl

/-- Claim C5, counterexample: on the claimed input — table "t", values
mapping "x" to 9, where Condition("id", 1) — the Update builder raises
ValueError (the SET loop iterates the keys of the dict and unpacks the
1-character key "x" into two variables), so build() yields no statement
at all, let alone UPDATE t SET x = ? WHERE (id = ?) with parameters. -/
theorem update_set_clause_counterexample :
    build { kind := .update, table_name := some "t",
            value_map := some [("x", .scalar (.int 9))],
            where_map := some (.cond { column_name := some "id", value := .scalar (.int 1) }) }
      = .error .valueError :=
  rfl

/-- Claim C5, amended: the SET renderer pairs the two characters of each
2-character key as a literal fragment "a = b" — never the key with a
placeholder — and raises ValueError for a key of any other length, such
as "x"; on a 2-character key "ab" with value 9 and where Condition("id",1)
the build succeeds with the key characters paired literally, the where
value inlined, and parameters [9] (the value map values only). -/
theorem update_set_clause_actual :
    getChangesString (some [("ab", .scalar (.int 9))]) = .ok "a = b" ∧
    build { kind := .update, table_name := some "t",
            value_map := some [("ab", .scalar (.int 9))],
            where_map := some (.cond { column_name := some "id", value := .scalar (.int 1) }) }
      = .ok (.ok "UPDATE t SET a = b WHERE id (\x27=\x27,) 1" (some [PyVal.scalar (.int 9)])) ∧
    (∀ (v : PyVal) (rest : List (String × PyVal)),
      changesParts (("x", v) :: rest) = .error .valueError) :=
  ⟨rfl, rfl, fun _ _ => rfl⟩

/-- Claim C6: the Insert builder on table "t" with the ordered value map
mapping "a" to 1 and "b" to 2 builds INSERT INTO t (a, b) VALUES (?, ?)
with parameters [1, 2]; in general the columns are the value map keys in
insertion order, with one positional placeholder per value and the values
as parameters in the same order. -/
theorem insert_build_spec :
    build { kind := .insert, table_name := some "t",
            value_map := some [("a", .scalar (.int 1)), ("b", .scalar (.int 2))] }
      = .ok (.ok "INSERT INTO t (a, b) VALUES (?, ?)"
              (some [PyVal.scalar (.int 1), PyVal.scalar (.int 2)])) ∧
    (∀ (t : String) (m : List (String × PyVal)) (w : Option WhereMap),
      build { kind := .insert, table_name := some t, value_map := some m, where_map := w }
        = .ok (.ok ("INSERT INTO " ++ t ++ " (" ++ String.intercalate ", " (m.map Prod.fst)
                ++ ") VALUES (" ++ String.intercalate ", " (List.replicate m.length "?") ++ ")")
              (some (m.map Prod.snd)))) :=
  ⟨rfl, fun _ _ _ => rfl⟩

/-- Claim C7, counterexample: the Select builder on table "t" with no
value map and no where tree builds SELECT * FROM t, but its args component
is None (the value map is absent), not the claimed empty sequence. -/
theorem select_star_args_counterexample :
    build { kind := .select, table_name := some "t" } = .ok (.ok "SELECT * FROM t" Option.none) ∧
    build { kind := .select, table_name := some "t" }
      ≠ .ok (.ok "SELECT * FROM t" (some ([] : List PyVal))) :=
  ⟨rfl, by decide⟩

/-- Claim C7, amended: the Select builder on table "t" with no value map
and no condition tree builds the statement SELECT * FROM t with args
None (absent), rather than an empty parameter sequence. -/
theorem select_star_build_actual :
    build { kind := .select, table_name := some "t" } = .ok (.ok "SELECT * FROM t" Option.none) :=
  rfl

/-- Claim C4, amended: when the table name is absent, build() returns the
error result "No table name provided." for every builder — including ones
whose renderer would raise — and never a statement; when the table name is
present and the statement renderer succeeds, build() returns the rendered
statement together with the args component (the value map values, or None
when the value map is absent). -/
theorem build_table_name_guard (q : Query) :
    (q.table_name = Option.none → build q = .ok (.err "No table name provided.")) ∧
    (∀ t s, q.table_name = some t → getQueryStr q t = .ok s →
      build q = .ok (.ok s (getArgs q.value_map))) := by
  constructor
  · intro h
    simp [build, h]
  · intro t s ht hs
    simp [build, ht, hs]

/-- Claim C4, witness: the table-name guard fires on an Update with no
table name (whose SET renderer would raise), and a Select on table "t"
builds to its statement and args. -/
theorem build_table_name_guard_witness :
    build { kind := .update, table_name := Option.none,
            value_map := some [("x", PyVal.scalar (.int 9))] }
      = .ok (.err "No table name provided.") ∧
    build { kind := .select, table_name := some "t" }
      = .ok (.ok "SELECT * FROM t" Option.none) :=
  ⟨(build_table_name_guard _).1 rfl,
   (build_table_name_guard _).2 "t" "SELECT * FROM t" rfl rfl⟩

/-- Looking a key up in an association list with distinct keys finds the
value it is paired with. -/
theorem dictGet_of_mem : ∀ {row : List (String × PyVal)} {k : String} {v : PyVal},
    (row.map Prod.fst).Nodup → (k, v) ∈ row → dictGet row k = some v := by
  intro row
  induction row with
  | nil => intro k v _ h; cases h
  | cons p rest ih =>
    intro k v hnd hmem
    obtain ⟨k0, v0⟩ := p
    rw [List.map_cons, List.nodup_cons] at hnd
    rcases List.mem_cons.mp hmem with heq | hm
    · cases heq
      simp [dictGet]
    · have hk : k0 ≠ k := by
        intro h
        apply hnd.1
        rw [h]
        exact List.mem_map.mpr ⟨(k, v), hm, rfl⟩
      simpa [dictGet, hk] using ih hnd.2 hm

/-- Setting a key that is not yet present appends the pair at the end. -/
theorem dictSet_of_not_mem : ∀ {m : List (String × PyVal)} {k : String} {v : PyVal},
    k ∉ m.map Prod.fst → dictSet m k v = m ++ [(k, v)] := by
  intro m
  induction m with
  | nil => intro k v _; rfl
  | cons p rest ih =>
    intro k v h
    obtain ⟨k0, w⟩ := p
    rw [List.map_cons, List.mem_cons] at h
    push_neg at h
    have hne : k0 ≠ k := fun he => h.1 he.symm
    simp [dictSet, hne, ih h.2]

/-- The from_sqlite loop over a batch of row entries whose renamed keys
are distinct and fresh for the accumulated model appends the renamed
pairs, in row order, with values unchanged. -/
theorem fromSqliteKeys_spec (row : List (String × PyVal)) (fm : Option (List (String × String))) :
    ∀ (rest : List (String × PyVal)) (m : Model),
    (row.map Prod.fst).Nodup →
    (∀ kv ∈ rest, kv ∈ row) →
    (rest.map (fun kv => mapKey fm kv.1)).Nodup →
    (∀ kv ∈ rest, mapKey fm kv.1 ∉ m.map Prod.fst) →
    fromSqliteKeys row fm (rest.map Prod.fst) m
      = m ++ rest.map (fun kv => (mapKey fm kv.1, kv.2)) := by
  intro rest
  induction rest with
  | nil => intro m _ _ _ _; simp [fromSqliteKeys]
  | cons kv rest ih =>
    intro m hrow hmem hnd hfresh
    obtain ⟨k, v⟩ := kv
    rw [List.map_cons, List.nodup_cons] at hnd
    have hget : dictGet row k = some v :=
      dictGet_of_mem hrow (hmem (k, v) (List.mem_cons_self _ _))
    have hset : dictSet m (mapKey fm k) v = m ++ [(mapKey fm k, v)] :=
      dictSet_of_not_mem (hfresh (k, v) (List.mem_cons_self _ _))
    have hfresh2 : ∀ kv ∈ rest, mapKey fm kv.1 ∉ (m ++ [(mapKey fm k, v)]).map Prod.fst := by
      intro kv hkv
      rw [List.map_append, List.mem_append]
      push_neg
      refine ⟨hfresh kv (List.mem_cons_of_mem _ hkv), ?_⟩
      simp only [List.map_cons, List.map_nil, List.mem_singleton]
      intro he
      exact hnd.1 (he ▸ List.mem_map.mpr ⟨kv, hkv, rfl⟩)
    have := ih (m ++ [(mapKey fm k, v)]) hrow
      (fun kv hkv => hmem kv (List.mem_cons_of_mem _ hkv)) hnd.2 hfresh2
    simp only [List.map_cons, fromSqliteKeys, hget, hset, this, List.append_assoc,
      List.singleton_append]

/-- Claim C8: a Model populated from a persisted row under a field
mapping, provided the renamed field names collide neither with each other
nor with an unmapped name, is exactly the row with each field renamed via
the mapping when a mapping entry exists for it (and kept otherwise), every
value stored unchanged. -/
theorem from_sqlite_field_mapping (row : List (String × PyVal))
    (fm : Option (List (String × String)))
    (h : (row.map (fun kv => mapKey fm kv.1)).Nodup) :
    fromSqlite [] row fm = row.map (fun kv => (mapKey fm kv.1, kv.2)) := by
  have h2 : ((row.map Prod.fst).map (mapKey fm)).Nodup := by
    rw [List.map_map]
    exact h
  have hrow : (row.map Prod.fst).Nodup := List.Nodup.of_map _ h2
  have := fromSqliteKeys_spec row fm row [] hrow (fun _ hk => hk) h (by simp)
  simpa [fromSqlite] using this

/-- Claim C8, witness: the row mapping "a" to 1 and "b" to "z", with the
field mapping renaming "a" to "x", populates a fresh model to the pairs
("x", 1) and ("b", "z"). -/
theorem from_sqlite_field_mapping_witness :
    fromSqlite [] [("a", PyVal.scalar (.int 1)), ("b", PyVal.scalar (.str "z"))]
        (some [("a", "x")])
      = [("x", PyVal.scalar (.int 1)), ("b", PyVal.scalar (.str "z"))] :=
  from_sqlite_field_mapping _ _ (by decide)

/-- Claim C9: set_if_tag_exists with the source field omitted behaves as
with it set to the field name; when the source value is present and not
None it is copied into the model under the field name — the first element
when the value is list-shaped with one, the value itself otherwise — and
in every other case (missing key, None value, empty list) the model is
left unchanged. -/
theorem set_if_tag_exists_spec (m : Model) (field sf : String)
    (source : List (String × PyVal)) :
    setIfTagExists m field source Option.none = setIfTagExists m field source (some field) ∧
    (∀ v, dictGet source sf = some v → v ≠ PyVal.none → (∀ xs, v ≠ PyVal.list xs) →
      setIfTagExists m field source (some sf) = (dictSet m field v, Option.none)) ∧
    (∀ x xs, dictGet source sf = some (PyVal.list (x :: xs)) →
      setIfTagExists m field source (some sf) = (dictSet m field (.scalar x), Option.none)) ∧
    ((dictGet source sf = Option.none ∨ dictGet source sf = some PyVal.none ∨
        dictGet source sf = some (PyVal.list [])) →
      (setIfTagExists m field source (some sf)).1 = m) := by
  refine ⟨rfl, ?_, ?_, ?_⟩
  · intro v hv hnn hnl
    cases v with
    | none => exact absurd rfl hnn
    | list xs => exact absurd rfl (hnl xs)
    | scalar s => simp [setIfTagExists, hv]
    | tuple xs => simp [setIfTagExists, hv]
  · intro x xs h
    simp [setIfTagExists, h]
  · intro h
    rcases h with h | h | h <;> simp [setIfTagExists, h]

/-- Claim C9, witness: a list-shaped tag value contributes its first
element, and a None tag value leaves the model untouched. -/
theorem set_if_tag_exists_witness :
    setIfTagExists [] "name" [("TITLE", PyVal.list [.str "Song"])] (some "TITLE")
      = ([("name", PyVal.scalar (.str "Song"))], Option.none) ∧
    (setIfTagExists [] "name" [("ARTIST", PyVal.none)] (some "ARTIST")).1 = [] :=
  ⟨(set_if_tag_exists_spec [] "name" "TITLE" _).2.2.1 (.str "Song") [] rfl,
   (set_if_tag_exists_spec [] "name" "ARTIST" _).2.2.2 (Or.inr (Or.inl rfl))⟩

/-- Claim C10: the args component of every successful build is exactly the
value map values in insertion order — None when the value map is absent —
independently of the where tree, whose values therefore never reach the
parameter sequence. -/
theorem build_args_value_map_only (q : Query) :
    ∀ s a, build q = .ok (.ok s a) → a = Option.map (List.map Prod.snd) q.value_map := by
  intro s a h
  cases htn : q.table_name with
  | none => simp [build, htn] at h
  | some t =>
    cases hq : getQueryStr q t with
    | error e => simp [build, htn, hq] at h
    | ok s0 =>
      simp [build, htn, hq] at h
      exact h.2.symm

/-- Claim C10, witness: the Insert example's parameters [1, 2] are the
value map values, in order. -/
theorem build_args_value_map_only_witness :
    some [PyVal.scalar (.int 1), PyVal.scalar (.int 2)]
      = Option.map (List.map Prod.snd)
          (some [("a", PyVal.scalar (.int 1)), ("b", PyVal.scalar (.int 2))]) :=
  build_args_value_map_only
    { kind := .insert, table_name := some "t",
      value_map := some [("a", .scalar (.int 1)), ("b", .scalar (.int 2))] }
    "INSERT INTO t (a, b) VALUES (?, ?)"
    (some [.scalar (.int 1), .scalar (.int 2)]) rfl
